import Mathlib

/-!
Verification development for `scripts/tailor_resume.js` (second variant of the
file, lines 207-521): a linear resume-tailoring pipeline
(extract → tailor → critique → revise → render).

The JavaScript program is shallowly embedded:
* JSON values are the inductive type `Json`; JS truthiness, property access
  and `JSON.stringify` are modelled explicitly.
* External effects (HTTP responses, the filesystem, `mammoth`, `marked`,
  `JSON.parse`, the headless browser) are supplied as explicit inputs
  ("the world"), so every run of the program is a pure function of them.
* Machine-level details that no claim depends on (path normalization inside
  `path.join`, `$`-replacement patterns of `String.prototype.replace`,
  float formatting of temperature literals) are simplified; each such spot
  is noted at the definition.
-/

/-- JSON values as delivered by `res.json()`.  Object fields keep insertion
order (JS objects preserve it and `JSON.stringify` serializes in it).
Numbers are modelled as integers: the program never computes with response
numbers, it only tests truthiness and re-serializes them. -/
inductive Json where
  | null : Json
  | bool (b : Bool) : Json
  | num (n : Int) : Json
  | str (s : String) : Json
  | arr (elems : List Json) : Json
  | obj (fields : List (String × Json)) : Json
deriving Repr

/-- JS truthiness of a value (`NaN` is not representable in the model;
`[]` and `\x7b\x7d` are truthy as in JS). -/
def Json.truthy : Json → Bool
  | .null => false
  | .bool b => b
  | .num n => n != 0
  | .str s => s != ""
  | .arr _ => true
  | .obj _ => true

/-- Property access `v.k`: `some` when `v` is an object with field `k`
(first occurrence), otherwise `none` (JS `undefined`). -/
def Json.getField : Json → String → Option Json
  | .obj fs, k => fs.lookup k
  | _, _ => none

/-- Truthiness of a possibly-`undefined`/parse-failed value. -/
def jsonTruthy : Option Json → Bool
  | none => false
  | some j => j.truthy

/-- One hex digit. -/
def hexDigit (n : Nat) : Char :=
  if n < 10 then Char.ofNat (48 + n) else Char.ofNat (87 + n)

/-- JSON string escaping as performed by `JSON.stringify`. -/
def jsonEscapeChar (c : Char) : List Char :=
  if c = '"' then ['\\', '"']
  else if c = '\\' then ['\\', '\\']
  else if c = '\n' then ['\\', 'n']
  else if c = '\r' then ['\\', 'r']
  else if c = '\t' then ['\\', 't']
  else if c = '\x08' then ['\\', 'b']
  else if c = '\x0c' then ['\\', 'f']
  else if c.toNat < 32 then
    ['\\', 'u', '0', '0', hexDigit (c.toNat / 16), hexDigit (c.toNat % 16)]
  else [c]

/-- `JSON.stringify` of a string value. -/
def jsonQuote (s : String) : String :=
  ⟨'"' :: (s.data.flatMap jsonEscapeChar) ++ ['"']⟩

mutual

/-- `JSON.stringify` restricted to the values representable by `Json`. -/
def jsonStringify : Json → String
  | .null => "null"
  | .bool true => "true"
  | .bool false => "false"
  | .num n => toString n
  | .str s => jsonQuote s
  | .arr xs => "[" ++ jsonStringifyArr xs ++ "]"
  | .obj fs => "\x7b" ++ jsonStringifyObj fs ++ "\x7d"

def jsonStringifyArr : List Json → String
  | [] => ""
  | [x] => jsonStringify x
  | x :: y :: xs => jsonStringify x ++ "," ++ jsonStringifyArr (y :: xs)

def jsonStringifyObj : List (String × Json) → String
  | [] => ""
  | [(k, v)] => jsonQuote k ++ ":" ++ jsonStringify v
  | (k, v) :: f :: fs => jsonQuote k ++ ":" ++ jsonStringify v ++ "," ++ jsonStringifyObj (f :: fs)

end

mutual

/-- JS `String(v)` coercion for a `Json` value (used when `.join` coerces a
non-string array element). -/
def jsToString : Json → String
  | .null => "null"
  | .bool true => "true"
  | .bool false => "false"
  | .num n => toString n
  | .str s => s
  | .arr xs => jsToStringArr xs
  | .obj _ => "[object Object]"

/-- `Array.prototype.toString` = `join(",")`, with `null` elements
rendered as the empty string. -/
def jsToStringArr : List Json → String
  | [] => ""
  | [x] => match x with
    | .null => ""
    | x => jsToString x
  | x :: y :: xs =>
    (match x with
     | .null => ""
     | x => jsToString x) ++ "," ++ jsToStringArr (y :: xs)

end

/-! ## JS string primitives used by the script -/

/-- The characters removed by JS `String.prototype.trim`
(WhiteSpace ∪ LineTerminator). -/
def isJsWhitespace (c : Char) : Bool :=
  let n := c.toNat
  (9 ≤ n && n ≤ 13) || n == 32 || n == 160 || n == 5760 ||
  (8192 ≤ n && n ≤ 8202) || n == 8232 || n == 8233 || n == 8239 ||
  n == 8287 || n == 12288 || n == 65279

/-- JS `s.trim()`. -/
def jsTrim (s : String) : String :=
  ⟨((s.data.dropWhile isJsWhitespace).reverse.dropWhile isJsWhitespace).reverse⟩

/-- JS `s.replace(/\r/g, '')`. -/
def removeCr (s : String) : String :=
  ⟨s.data.filter (· ≠ '\x0d')⟩

/-- First index at which `pat` occurs as a contiguous sublist, if any. -/
def findSubIdx (pat : List Char) : List Char → Option Nat
  | [] => if pat.isPrefixOf ([] : List Char) then some 0 else none
  | c :: cs =>
    if pat.isPrefixOf (c :: cs) then some 0
    else (findSubIdx pat cs).map (· + 1)

/-- Does `pat` occur as a contiguous sublist of `l`? -/
def containsSub (pat l : List Char) : Bool :=
  (findSubIdx pat l).isSome

/-- JS `s.replace(pat, rep)` with a *string* pattern: replaces the first
occurrence only.  (`$`-replacement patterns of JS are not modelled; the
program substitutes into its own HTML template, where they do not occur.) -/
def goReplace (pat rep : List Char) : List Char → List Char
  | [] => if pat.isPrefixOf ([] : List Char) then rep else []
  | c :: cs =>
    if pat.isPrefixOf (c :: cs) then rep ++ (c :: cs).drop pat.length
    else c :: goReplace pat rep cs

/-- JS first-occurrence string replace on `String`. -/
def replaceFirst (s pat rep : String) : String :=
  ⟨goReplace pat.data rep.data s.data⟩

/-- Split on the line terminators `\n` and `\r` (the characters that the
JS regex `.` cannot match). -/
def splitTermLines (l : List Char) (acc : List Char) : List (List Char) :=
  match l with
  | [] => [acc.reverse]
  | c :: cs =>
    if c = '\n' || c = '\x0d' then acc.reverse :: splitTermLines cs []
    else splitTermLines cs (c :: acc)

/-- The test `/Unknown name.*temperature|Unknown name.*maxOutputTokens/i.test s`:
some line contains (case-insensitively) `"unknown name"` followed, later on
the same line, by `"temperature"` or `"maxoutputtokens"`. -/
def unknownNameRegexTest (s : String) : Bool :=
  (splitTermLines (s.data.map Char.toLower) []).any fun l =>
    match findSubIdx "unknown name".data l with
    | some i =>
      containsSub "temperature".data (l.drop (i + 12)) ||
      containsSub "maxoutputtokens".data (l.drop (i + 12))
    | none => false

/-- The match `gapsRaw.match(/\x7b[\s\S]*\x7d/)`: with the greedy star this
is the substring from the first `\x7b` to the last `\x7d`, provided the
former precedes the latter; `none` otherwise. -/
def braceMatch (s : String) : Option String :=
  match s.data.findIdx? (· = '\x7b'), s.data.reverse.findIdx? (· = '\x7d') with
  | some i, some rj =>
    let j := s.data.length - 1 - rj
    if i < j then some ⟨(s.data.drop i).take (j - i + 1)⟩ else none
  | _, _ => none

/-! ## Path helpers (`path` module, POSIX flavor) -/

/-- JS `s.startsWith(pre)`. -/
def strStartsWith (s pre : String) : Bool := pre.data.isPrefixOf s.data

/-- `path.isAbsolute`. -/
def isAbsolutePath (p : String) : Bool := strStartsWith p "/"

/-- `path.join a b`, modelled as separator concatenation (the joined
candidate paths of this program need no `.`/`..` normalization). -/
def pathJoin (a b : String) : String := a ++ "/" ++ b

/-- `path.basename`: the part after the last separator (the resume paths
used here have no trailing slash). -/
def pathBasename (p : String) : String :=
  ⟨(p.data.reverse.takeWhile (· ≠ '/')).reverse⟩

/-- JS `toLowerCase`, ASCII-faithful. -/
def jsToLower (s : String) : String := ⟨s.data.map Char.toLower⟩

/-- JS global replace of every dash by an underscore. -/
def dashesToUnderscores (s : String) : String :=
  ⟨s.data.map fun c => if c = '-' then '_' else c⟩

/-- JS `s.replace(/^resumes\//, 'resume/')` and its converse: replace the
given leading folder when present. -/
def swapLeadingFolder (s old new : String) : String :=
  if strStartsWith s old then new ++ ⟨s.data.drop old.data.length⟩ else s

/-- The `seen`-set deduplication of `findResumeFile`, keeping first
occurrences in order. -/
def dedupKeepFirst (seen : List String) : List String → List String
  | [] => []
  | x :: xs =>
    if x ∈ seen then dedupKeepFirst seen xs
    else x :: dedupKeepFirst (x :: seen) xs

/-! ## Response-shape extraction (`extractTextFromResponseJson`) -/

/-- The mapper `o => (o.text || JSON.stringify(o))` together with the string
coercion that `join('\n')` applies to a non-string truthy `o.text`. -/
def textOrStringify (p : Json) : String :=
  match p.getField "text" with
  | some t => if t.truthy then jsToString t else jsonStringify p
  | none => jsonStringify p

/-- The mapper `p => (typeof p === 'string' ? p : (p.text || JSON.stringify(p)))`
used on `candidates[0].content` when it is an array. -/
def contentPartToString (p : Json) : String :=
  match p with
  | .str s => s
  | p => textOrStringify p

/-- The `candidates` block (source lines 361-374): `some` is an early
`return`, `none` means control falls through to the `json.output` check. -/
def candidatesBlock (j : Json) : Option String :=
  match j.getField "candidates" with
  | some (.arr cs) =>
    match cs.head? with
    | some cand =>
      if cand.truthy then
        match cand.getField "content" with
        | some (.str s) => some s
        | some (.arr ps) => some (String.intercalate "\n" (ps.map contentPartToString))
        | _ =>
          match cand.getField "output" with
          | some (.arr os) => some (String.intercalate "\n" (os.map textOrStringify))
          | _ =>
            match cand.getField "message" with
            | some msg =>
              if msg.truthy then
                match msg.getField "content" with
                | some mc =>
                  if mc.truthy then
                    match mc with
                    | .str s => some s
                    | .arr xs => some (String.intercalate "\n" (xs.map textOrStringify))
                    | _ => none
                  else none
                | none => none
              else none
            | none => none
      else none
    | none => none
  | _ => none

/-- The top-level `json.output` block (source lines 376-378). -/
def topOutputBlock (j : Json) : Option String :=
  match j.getField "output" with
  | some (.arr os) =>
    match os.head? with
    | some o0 =>
      if o0.truthy then
        match o0.getField "content" with
        | some (.arr ps) => some (String.intercalate "\n" (ps.map textOrStringify))
        | _ => none
      else none
    | none => none
  | _ => none

/-- `extractTextFromResponseJson` (source lines 356-382).  The argument is
`none` when `res.json()` failed and the variable holds its initial `null`;
a falsy parsed value also takes the `if (!json) return ''` exit. -/
def extractTextFromResponseJson (json : Option Json) : String :=
  match json with
  | none => ""
  | some j =>
    if !j.truthy then ""
    else
      match j.getField "output_text" with
      | some (.str s) => s
      | _ =>
        match candidatesBlock j with
        | some s => s
        | none =>
          match topOutputBlock j with
          | some s => s
          | none => jsonStringify j

/-! ## Spec-side view of the extraction: the documented shapes, tried in
the documented priority order.  These definitions follow the wording of
the specification ("direct `output_text` field; first candidate's content
as string, list of parts, output list, or nested message object;
top-level output list; otherwise the whole response serialized"). -/

/-- Spec shape 1: a direct string `output_text` field. -/
def shapeOutputText (j : Json) : Option String :=
  match j.getField "output_text" with
  | some (.str s) => some s
  | _ => none

/-- The first candidate, when `candidates` is an array whose first element
is a truthy value. -/
def firstCandidate (j : Json) : Option Json :=
  match j.getField "candidates" with
  | some (.arr cs) =>
    match cs.head? with
    | some c => if c.truthy then some c else none
    | none => none
  | _ => none

/-- Spec shape 2: the first candidate's `content` as a plain string. -/
def shapeCandContentString (j : Json) : Option String :=
  (firstCandidate j).bind fun c =>
    match c.getField "content" with
    | some (.str s) => some s
    | _ => none

/-- Spec shape 3: the first candidate's `content` as a list of parts. -/
def shapeCandContentParts (j : Json) : Option String :=
  (firstCandidate j).bind fun c =>
    match c.getField "content" with
    | some (.arr ps) => some (String.intercalate "\n" (ps.map contentPartToString))
    | _ => none

/-- Spec shape 4: the first candidate's `output` list. -/
def shapeCandOutputList (j : Json) : Option String :=
  (firstCandidate j).bind fun c =>
    match c.getField "output" with
    | some (.arr os) => some (String.intercalate "\n" (os.map textOrStringify))
    | _ => none

/-- Spec shape 5: the first candidate's nested `message` object with a
truthy `content` that is a string or a list. -/
def shapeCandMessage (j : Json) : Option String :=
  (firstCandidate j).bind fun c =>
    match c.getField "message" with
    | some msg =>
      if msg.truthy then
        match msg.getField "content" with
        | some mc =>
          if mc.truthy then
            match mc with
            | .str s => some s
            | .arr xs => some (String.intercalate "\n" (xs.map textOrStringify))
            | _ => none
          else none
        | none => none
      else none
    | none => none

/-- Spec shape 6: a top-level `output` list whose first element is truthy
and carries a `content` list. -/
def shapeTopOutput (j : Json) : Option String :=
  match j.getField "output" with
  | some (.arr os) =>
    match os.head? with
    | some o0 =>
      if o0.truthy then
        match o0.getField "content" with
        | some (.arr ps) => some (String.intercalate "\n" (ps.map textOrStringify))
        | _ => none
      else none
    | none => none
  | _ => none

/-- The specification's description of the parser: try the documented
shapes in the fixed priority order, return the text of the first shape
that matches, and serialize the whole response when none matches. -/
def extractByPriority (json : Option Json) : String :=
  match json with
  | none => ""
  | some j =>
    if !j.truthy then ""
    else
      match shapeOutputText j with
      | some s => s
      | none =>
        match shapeCandContentString j with
        | some s => s
        | none =>
          match shapeCandContentParts j with
          | some s => s
          | none =>
            match shapeCandOutputList j with
            | some s => s
            | none =>
              match shapeCandMessage j with
              | some s => s
              | none =>
                match shapeTopOutput j with
                | some s => s
                | none => jsonStringify j

/-! ## The Generation Client (`callGemini`, source lines 288-353) -/

/-- The record returned by the `postJson` helper (source lines 309-319):
`json` is `none` when `res.json()` threw, in which case `text` holds
`res.text()` (itself `none` when that also threw). -/
structure AttemptResult where
  ok : Bool
  status : Nat
  json : Option Json
  text : Option String

/-- The two HTTP responses an invocation of `callGemini` can consume:
`attempt1` answers the `candidateConfig` payload, `attempt2` answers the
minimal payload if a second request is made. -/
structure GeminiOracle where
  attempt1 : AttemptResult
  attempt2 : AttemptResult

/-- The per-call options (`opts.temperature`, `opts.maxOutputTokens`).
The temperature is carried as its source literal (the program only embeds
it in the payload, never computes with it). -/
structure GeminiOpts where
  temperature : String
  maxOutputTokens : Nat

/-- An outbound request body: `contents` built from the prompt, plus the
`candidateConfig` object on the first-attempt payload shape only. -/
structure RequestBody where
  prompt : String
  candidateConfig : Option (String × Nat)

/-- `attempt1.json ? JSON.stringify(attempt1.json) : (attempt1.text || 'status N')`
(source line 333). -/
def errTextOfAttempt (a : AttemptResult) : String :=
  match a.json with
  | some j =>
    if j.truthy then jsonStringify j
    else
      match a.text with
      | some t => if t = "" then "status " ++ toString a.status else t
      | none => "status " ++ toString a.status
  | none =>
    match a.text with
    | some t => if t = "" then "status " ++ toString a.status else t
    | none => "status " ++ toString a.status

/-- `attempt.json ? JSON.stringify(attempt.json) : attempt.text`, as it
appears inside a template literal (JS renders `null` as `"null"`)
(source lines 342 and 350-351). -/
def msgOfAttempt (a : AttemptResult) : String :=
  match a.json with
  | some j =>
    if j.truthy then jsonStringify j
    else
      match a.text with
      | some t => t
      | none => "null"
  | none =>
    match a.text with
    | some t => t
    | none => "null"

/-- The observable body of a failed attempt: its JSON body when one was
parsed (and truthy), otherwise its raw text body (empty when absent). -/
def failureBody (a : AttemptResult) : String :=
  match a.json with
  | some j => if j.truthy then jsonStringify j else (a.text.getD "")
  | none => a.text.getD ""

/-- `callGemini` (source lines 288-353), as a function of the prompt, the
options and the two possible HTTP responses.  Returns the JS return value
(or thrown error message) together with the list of request bodies sent,
in order. -/
def callGemini (prompt : String) (opts : GeminiOpts) (o : GeminiOracle) :
    Except String String × List RequestBody :=
  let body1 : RequestBody := ⟨prompt, some (opts.temperature, opts.maxOutputTokens)⟩
  let body2 : RequestBody := ⟨prompt, none⟩
  let attempt1 := o.attempt1
  if attempt1.ok then
    (.ok (extractTextFromResponseJson attempt1.json), [body1])
  else
    let errText := errTextOfAttempt attempt1
    if attempt1.status = 400 && unknownNameRegexTest errText then
      let attempt2 := o.attempt2
      if attempt2.ok then
        (.ok (extractTextFromResponseJson attempt2.json), [body1, body2])
      else
        (.error ("Gemini API error (both attempts failed). First: " ++ errText ++
                  ". Second: " ++ msgOfAttempt attempt2),
         [body1, body2])
    else
      let attempt2 := o.attempt2
      if attempt2.ok then
        (.ok (extractTextFromResponseJson attempt2.json), [body1, body2])
      else
        (.error ("Gemini API error. Attempt1: " ++ msgOfAttempt attempt1 ++
                  ". Attempt2: " ++ msgOfAttempt attempt2),
         [body1, body2])

/-- Did an oracle's call succeed: the first attempt was accepted, or the
minimal-payload attempt was. -/
def geminiSucceeds (o : GeminiOracle) : Bool :=
  o.attempt1.ok || o.attempt2.ok

/-! ## Prompt builders (source lines 385-437) -/

/-- `buildTailorPrompt` (source lines 385-404). -/
def buildTailorPrompt (resumeText jobTitle jobDesc : String) : String :=
  "\nYou are an expert resume writer. Tailor the following existing resume text to the job.\n\n=== EXISTING RESUME TEXT START ===\n"
  ++ resumeText ++
  "\n=== EXISTING RESUME TEXT END ===\n\nJob title: "
  ++ jobTitle ++
  "\nJob description:\n"
  ++ jobDesc ++
  "\n\nTask:\n1) Produce a tailored resume (in Markdown) that emphasizes relevant skills, achievements, and keywords matching the job description.\n2) Keep it concise — 1-2 pages equivalent, with bullet points for responsibilities & achievements.\n3) Where possible, quantify achievements (use reasonable placeholders if specific numbers are not present).\n4) Use headings: Name, Contact (placeholders allowed), Summary, Skills, Experience (with bullets), Education, Certifications.\n5) Return ONLY the resume in Markdown (no analysis).\n"

/-- `buildRecruiterReviewPrompt` (source lines 406-421). -/
def buildRecruiterReviewPrompt (tailoredResumeMarkdown company jobTitle jobDesc : String) : String :=
  "\nYou are now a recruiter at "
  ++ company ++
  " reviewing a candidate for the role: "
  ++ jobTitle ++
  ".\n\nJob description:\n"
  ++ jobDesc ++
  "\n\nCandidate tailored resume:\n"
  ++ tailoredResumeMarkdown ++
  "\n\nTask:\n1) As the recruiter, list up to 10 specific gaps or weaknesses where the candidate does not match the job (missing skills, experience, unclear quantification, seniority mismatch).\n2) For each gap, explain why it's important for the role and give a one-sentence suggestion on how to fix it in the resume or cover letter.\nReturn the response as JSON with fields: \x7b \"gaps\": [ \x7b \"issue\": \"...\", \"importance\": \"...\", \"fix\": \"...\" \x7d ] \x7d\n"

/-- `buildFixPrompt` (source lines 423-437). -/
def buildFixPrompt (tailoredResumeMarkdown gapsJson : String) : String :=
  "\nYou are an expert resume writer. Given the tailored resume below and the recruiter's identified gaps, update and improve the resume to address the gaps.\n\nTailored resume:\n"
  ++ tailoredResumeMarkdown ++
  "\n\nRecruiter gaps (JSON):\n"
  ++ gapsJson ++
  "\n\nTask:\n1) Modify the resume to address the gaps as best as possible. If quantification is invented, mark numbers with parentheses and note they should be replaced.\n2) Return only the final updated resume in Markdown.\n"

/-! ## Document Text Extractor (source lines 278-282) -/

/-- `extractTextFromDocx`, as a function of the raw text `result.value`
that `mammoth.extractRawText` produced for the file: drop all carriage
returns, then trim. -/
def extractTextFromDocx (rawValue : String) : String :=
  jsTrim (removeCr rawValue)

/-! ## Resume-file resolution (`findResumeFile`, source lines 236-275) -/

/-- `findResumeFile`: builds the candidate list, deduplicates it keeping
first occurrences, and returns the first candidate the filesystem reports
as existing. -/
def findResumeFile (fsExists : String → Bool) (cwd requestedPath : String) : Option String :=
  let candidates :=
    (if isAbsolutePath requestedPath then [requestedPath]
     else [pathJoin cwd requestedPath]) ++
    (if !(strStartsWith requestedPath "resumes/") && !(strStartsWith requestedPath "resume/") then
       [pathJoin cwd (pathJoin "resumes" requestedPath),
        pathJoin cwd (pathJoin "resume" requestedPath)]
     else
       [pathJoin cwd (swapLeadingFolder requestedPath "resumes/" "resume/"),
        pathJoin cwd (swapLeadingFolder requestedPath "resume/" "resumes/")]) ++
    [pathJoin cwd (pathBasename requestedPath),
     pathJoin cwd (jsToLower (pathBasename requestedPath)),
     pathJoin cwd (dashesToUnderscores (pathBasename requestedPath))]
  let uniq := dedupKeepFirst [] (candidates.filter (· ≠ ""))
  uniq.find? fsExists

/-! ## Critique-stage gap parsing (source lines 487-495) -/

/-- The stage-2 post-processing of the raw critique response: take the
brace-delimited match if there is one, keep it if `JSON.parse` accepts it,
and fall back to the raw text otherwise.  `jsonParses` is the
`JSON.parse`-succeeds predicate of the runtime. -/
def computeGapsJson (jsonParses : String → Bool) (gapsRaw : String) : String :=
  let gapsJson :=
    match braceMatch gapsRaw with
    | some m => m
    | none => gapsRaw
  if jsonParses gapsJson then gapsJson else gapsRaw

/-! ## Flag parsing (source line 233) -/

/-- JS `parseInt(s, 10)`: skip leading whitespace, optional sign, then the
longest digit prefix; `NaN` (here `none`) when no digits follow. -/
def jsParseIntPrefix (s : String) : Option Int :=
  let l := s.data.dropWhile isJsWhitespace
  let signAndRest : Int × List Char :=
    match l with
    | '-' :: cs => (-1, cs)
    | '+' :: cs => (1, cs)
    | cs => (1, cs)
  let digits := signAndRest.2.takeWhile Char.isDigit
  if digits = [] then none
  else some (signAndRest.1 *
    (Int.ofNat (digits.foldl (fun acc c => acc * 10 + (c.toNat - 48)) 0)))

/-- The command-line flags of the process (source lines 229-233).  The
max-iterations flag is carried raw, as minimist delivers it; `none` means
the flag was absent. -/
structure Args where
  jobTitle : String
  jobDesc : String
  company : String
  resumePathInput : String
  maxIterationsFlag : Option String

/-- `parseInt(argv['max-iterations'] || 1, 10) || 1` (source line 233):
an absent or falsy flag parses the literal `1`; a parse failure (`NaN`)
or a parsed `0` also collapses to `1`. -/
def maxIterations (args : Args) : Int :=
  let parsed : Option Int :=
    match args.maxIterationsFlag with
    | some s => if s = "" then some 1 else jsParseIntPrefix s
    | none => some 1
  match parsed with
  | some n => if n = 0 then 1 else n
  | none => 1

/-! ## Document Renderer (`saveMarkdownAsPdf`, source lines 440-457) -/

/-- Whether the three awaited browser steps succeed, with a message for a
rejection (`String(err)` minus the `"Error: "` wrapper). -/
structure RenderOracle where
  launch : Except String Unit
  setContent : Except String Unit
  pdf : Except String Unit

/-- The observable outcome of `saveMarkdownAsPdf`: the filled HTML (always
persisted before the browser starts), whether a browser instance was
launched and whether it was closed, and the JS return/throw. -/
structure RenderOutcome where
  htmlArtifact : String
  browserLaunched : Bool
  browserClosed : Bool
  result : Except String Unit

/-- The built-in fallback template (source line 444). -/
def defaultTemplate : String :=
  "<!doctype html><html><head><meta charset=\"utf-8\"><title>\x7b\x7bTITLE\x7d\x7d</title></head><body>\x7b\x7bCONTENT\x7d\x7d</body></html>"

/-- `saveMarkdownAsPdf` (source lines 440-457).  `markedParse` stands for
`marked.parse`, `templateFile` for the optional
`templates/resume_template.html` contents.  The straight-line await chain
has no `finally`: `browser.close()` (line 456) runs only after `page.pdf`
resolved. -/
def saveMarkdownAsPdf (markedParse : String → String) (templateFile : Option String)
    (markdownText : String) (title : String) (o : RenderOracle) : RenderOutcome :=
  let template := templateFile.getD defaultTemplate
  let htmlResume := markedParse markdownText
  let filled :=
    replaceFirst (replaceFirst template "\x7b\x7bCONTENT\x7d\x7d" htmlResume)
      "\x7b\x7bTITLE\x7d\x7d" title
  match o.launch with
  | .error e =>
    { htmlArtifact := filled, browserLaunched := false, browserClosed := false,
      result := .error e }
  | .ok _ =>
    match o.setContent with
    | .error e =>
      { htmlArtifact := filled, browserLaunched := true, browserClosed := false,
        result := .error e }
    | .ok _ =>
      match o.pdf with
      | .error e =>
        { htmlArtifact := filled, browserLaunched := true, browserClosed := false,
          result := .error e }
      | .ok _ =>
        { htmlArtifact := filled, browserLaunched := true, browserClosed := true,
          result := .ok () }

/-- All three awaited browser steps succeed. -/
def renderSucceeds (o : RenderOracle) : Bool :=
  (match o.launch with | .ok _ => true | .error _ => false) &&
  (match o.setContent with | .ok _ => true | .error _ => false) &&
  (match o.pdf with | .ok _ => true | .error _ => false)

/-! ## Pipeline Orchestrator (main IIFE, source lines 460-521) -/

/-- Is an `Except` a success? -/
def isOkE {ε α : Type} : Except ε α → Bool
  | .ok _ => true
  | .error _ => false

/-- Contents of a file the run writes. -/
inductive FileData where
  | text (s : String)
  | pdfRendered (html : String)

/-- A file written under `output/`. -/
structure Artifact where
  path : String
  data : FileData

/-- Everything outside the process that a run consumes: the filesystem
view, the `mammoth` extraction result (`.error` carries the thrown error's
message), the three Gemini responses, the `JSON.parse` oracle, the
optional HTML template, `marked.parse`, and the browser behavior. -/
structure World where
  cwd : String
  fsExists : String → Bool
  docxRaw : Except String String
  g1 : GeminiOracle
  g2 : GeminiOracle
  g3 : GeminiOracle
  jsonParses : String → Bool
  templateFile : Option String
  markedParse : String → String
  render : RenderOracle

/-- The observables of one process run: exit status, files written under
`output/` in order, outbound requests in order, and which stages started.
`critiqueRaw` records the stage-2 response text when stage 2 succeeded. -/
structure RunResult where
  exitCode : Nat
  artifacts : List Artifact
  requests : List RequestBody
  extractionRan : Bool
  stage1Ran : Bool
  stage2Ran : Bool
  stage3Ran : Bool
  renderRan : Bool
  critiqueRaw : Option String

/-- The `String(err)` written to `output/error.txt` for a thrown `Error`
with message `e`. -/
def errArtifactText (e : String) : String := "Error: " ++ e

/-- The main flow (source lines 460-521): resolve the resume (exit 2 when
no candidate exists), extract, run the three Gemini stages persisting each
output, render the PDF, exit 0; any throw is caught, written to
`output/error.txt`, and the process exits 10. -/
def mainRun (args : Args) (w : World) : RunResult :=
  match findResumeFile w.fsExists w.cwd args.resumePathInput with
  | none =>
    { exitCode := 2, artifacts := [], requests := [],
      extractionRan := false, stage1Ran := false, stage2Ran := false,
      stage3Ran := false, renderRan := false, critiqueRaw := none }
  | some _ =>
    match w.docxRaw with
    | .error e =>
      { exitCode := 10,
        artifacts := [⟨"output/error.txt", .text (errArtifactText e)⟩],
        requests := [], extractionRan := true, stage1Ran := false,
        stage2Ran := false, stage3Ran := false, renderRan := false,
        critiqueRaw := none }
    | .ok rawValue =>
      let resumeText := extractTextFromDocx rawValue
      let tailorPrompt := buildTailorPrompt resumeText args.jobTitle args.jobDesc
      let r1 := callGemini tailorPrompt ⟨"0.2", 4096⟩ w.g1
      match r1.1 with
      | .error e =>
        { exitCode := 10,
          artifacts := [⟨"output/error.txt", .text (errArtifactText e)⟩],
          requests := r1.2, extractionRan := true, stage1Ran := true,
          stage2Ran := false, stage3Ran := false, renderRan := false,
          critiqueRaw := none }
      | .ok tailored =>
        let a1 : Artifact := ⟨"output/tailored_resume_stage1.md", .text tailored⟩
        let reviewPrompt := buildRecruiterReviewPrompt tailored args.company args.jobTitle args.jobDesc
        let r2 := callGemini reviewPrompt ⟨"0.1", 1024⟩ w.g2
        match r2.1 with
        | .error e =>
          { exitCode := 10,
            artifacts := [a1, ⟨"output/error.txt", .text (errArtifactText e)⟩],
            requests := r1.2 ++ r2.2, extractionRan := true, stage1Ran := true,
            stage2Ran := true, stage3Ran := false, renderRan := false,
            critiqueRaw := none }
        | .ok gapsRaw =>
          let gapsJson := computeGapsJson w.jsonParses gapsRaw
          let a2 : Artifact := ⟨"output/recruiter_gaps.json.txt", .text gapsJson⟩
          let fixPrompt := buildFixPrompt tailored gapsJson
          let r3 := callGemini fixPrompt ⟨"0.15", 4096⟩ w.g3
          match r3.1 with
          | .error e =>
            { exitCode := 10,
              artifacts := [a1, a2, ⟨"output/error.txt", .text (errArtifactText e)⟩],
              requests := r1.2 ++ r2.2 ++ r3.2, extractionRan := true,
              stage1Ran := true, stage2Ran := true, stage3Ran := true,
              renderRan := false, critiqueRaw := some gapsRaw }
          | .ok fixedResume =>
            let a3 : Artifact := ⟨"output/tailored_resume_final.md", .text fixedResume⟩
            let ro := saveMarkdownAsPdf w.markedParse w.templateFile fixedResume
              (args.jobTitle ++ " - Tailored Resume") w.render
            let aHtml : Artifact := ⟨"output/tailored_resume_rendered.html", .text ro.htmlArtifact⟩
            match ro.result with
            | .error e =>
              { exitCode := 10,
                artifacts := [a1, a2, a3, aHtml,
                  ⟨"output/error.txt", .text (errArtifactText e)⟩],
                requests := r1.2 ++ r2.2 ++ r3.2, extractionRan := true,
                stage1Ran := true, stage2Ran := true, stage3Ran := true,
                renderRan := true, critiqueRaw := some gapsRaw }
            | .ok _ =>
              { exitCode := 0,
                artifacts := [a1, a2, a3, aHtml,
                  ⟨"output/tailored_resume_final.pdf", .pdfRendered ro.htmlArtifact⟩],
                requests := r1.2 ++ r2.2 ++ r3.2, extractionRan := true,
                stage1Ran := true, stage2Ran := true, stage3Ran := true,
                renderRan := true, critiqueRaw := some gapsRaw }

/-- The run reaches its end without any throw. -/
def runFullySucceeds (args : Args) (w : World) : Bool :=
  (findResumeFile w.fsExists w.cwd args.resumePathInput).isSome &&
  isOkE w.docxRaw &&
  geminiSucceeds w.g1 && geminiSucceeds w.g2 && geminiSucceeds w.g3 &&
  renderSucceeds w.render

/-- `needle` occurs contiguously inside `hay`. -/
def strContains (needle hay : String) : Prop :=
  ∃ pre suf : String, hay = pre ++ needle ++ suf

/-- No carriage-return character occurs in `s`. -/
def hasNoCarriageReturn (s : String) : Bool :=
  s.data.all (· ≠ '\x0d')

/-- The first character of `s`, if any, is not JS whitespace. -/
def noLeadingWhitespace (s : String) : Bool :=
  match s.data.head? with
  | some c => !isJsWhitespace c
  | none => true

/-- The last character of `s`, if any, is not JS whitespace. -/
def noTrailingWhitespace (s : String) : Bool :=
  match s.data.getLast? with
  | some c => !isJsWhitespace c
  | none => true

/-- The path heuristic resolved some existing resume file. -/
def resumeResolved (args : Args) (w : World) : Bool :=
  (findResumeFile w.fsExists w.cwd args.resumePathInput).isSome

/-! # Theorems -/

/-! ## General list/string lemmas -/

theorem mem_of_mem_dropWhile {α : Type} (p : α → Bool) :
    ∀ (l : List α) (a : α), a ∈ l.dropWhile p → a ∈ l := by
  intro l
  induction l with
  | nil => intro a h; exact absurd h (by simp [List.dropWhile])
  | cons b t ih =>
    intro a h
    by_cases hb : p b
    · simp only [List.dropWhile, hb] at h
      exact List.mem_cons_of_mem b (ih a h)
    · have hb' : p b = false := by simpa using hb
      simp only [List.dropWhile, hb'] at h
      exact h

theorem dropWhile_head?_not {α : Type} (p : α → Bool) :
    ∀ (l : List α) (c : α), (l.dropWhile p).head? = some c → p c = false := by
  intro l
  induction l with
  | nil => intro c h; simp [List.dropWhile] at h
  | cons b t ih =>
    intro c h
    by_cases hb : p b
    · simp only [List.dropWhile, hb] at h
      exact ih c h
    · have hb' : p b = false := by simpa using hb
      simp only [List.dropWhile, hb', List.head?_cons, Option.some.injEq] at h
      rw [← h]
      exact hb' 

theorem dropWhile_getLast?_of_ne_nil {α : Type} (p : α → Bool) :
    ∀ (l : List α), l.dropWhile p ≠ [] → (l.dropWhile p).getLast? = l.getLast? := by
  intro l
  induction l with
  | nil => intro h; simp [List.dropWhile] at h
  | cons b t ih =>
    intro h
    by_cases hb : p b
    · simp only [List.dropWhile, hb] at h ⊢
      rw [ih h]
      have ht : t ≠ [] := by
        intro he; rw [he] at h; simp [List.dropWhile] at h
      cases t with
      | nil => exact absurd rfl ht
      | cons x xs => simp [List.getLast?_cons_cons]
    · have hb' : p b = false := by simpa using hb
      simp only [List.dropWhile, hb']

theorem strData_append (a b : String) : (a ++ b).data = a.data ++ b.data := rfl

theorem strContains_parts (x pre suf : String) : strContains x (pre ++ x ++ suf) :=
  ⟨pre, suf, rfl⟩

theorem strContains_empty (hay : String) : strContains "" hay := by
  refine ⟨hay, "", ?_⟩
  apply String.ext
  simp [strData_append]

theorem jsTrim_data (s : String) :
    (jsTrim s).data =
      ((s.data.dropWhile isJsWhitespace).reverse.dropWhile isJsWhitespace).reverse := rfl

theorem jsTrim_mem (s : String) (c : Char) : c ∈ (jsTrim s).data → c ∈ s.data := by
  intro h
  rw [jsTrim_data, List.mem_reverse] at h
  have h1 := mem_of_mem_dropWhile isJsWhitespace _ c h
  rw [List.mem_reverse] at h1
  exact mem_of_mem_dropWhile isJsWhitespace _ c h1

theorem jsTrim_no_leading (s : String) : noLeadingWhitespace (jsTrim s) = true := by
  rw [noLeadingWhitespace, jsTrim_data, List.head?_reverse]
  by_cases hnil :
      ((s.data.dropWhile isJsWhitespace).reverse.dropWhile isJsWhitespace) = []
  · rw [hnil]; rfl
  · rw [dropWhile_getLast?_of_ne_nil isJsWhitespace _ hnil, List.getLast?_reverse]
    cases hh : (s.data.dropWhile isJsWhitespace).head? with
    | none => rfl
    | some c =>
      have hc := dropWhile_head?_not isJsWhitespace s.data c hh
      simp [hc]

theorem jsTrim_no_trailing (s : String) : noTrailingWhitespace (jsTrim s) = true := by
  rw [noTrailingWhitespace, jsTrim_data, List.getLast?_reverse]
  cases hh :
      ((s.data.dropWhile isJsWhitespace).reverse.dropWhile isJsWhitespace).head? with
  | none => rfl
  | some c =>
    have hc := dropWhile_head?_not isJsWhitespace _ c hh
    simp [hc]

/-- C7: for every resume file readable as a DOCX document (i.e. for every
raw text `mammoth` can deliver for it), `extractTextFromDocx` returns a
string with no carriage-return characters and no leading or trailing
whitespace. -/
theorem extracted_text_no_cr_no_edge_whitespace :
    ∀ rawValue : String,
      hasNoCarriageReturn (extractTextFromDocx rawValue) = true ∧
      noLeadingWhitespace (extractTextFromDocx rawValue) = true ∧
      noTrailingWhitespace (extractTextFromDocx rawValue) = true := by
  intro rawValue
  refine ⟨?_, jsTrim_no_leading _, jsTrim_no_trailing _⟩
  rw [hasNoCarriageReturn, List.all_eq_true]
  intro c hc
  have h1 := jsTrim_mem (removeCr rawValue) c hc
  have h2 : c ∈ rawValue.data.filter (· ≠ '\x0d') := h1
  rw [List.mem_filter] at h2
  exact h2.2

/-- C8: the three prompt builders are pure and deterministic — byte-equal
inputs give byte-equal prompts — and, being total Lean functions over
arbitrary strings, they cannot fail. -/
theorem prompt_builders_deterministic :
    ∀ r₁ r₂ t₁ t₂ d₁ d₂ c₁ c₂ g₁ g₂ : String,
      r₁ = r₂ → t₁ = t₂ → d₁ = d₂ → c₁ = c₂ → g₁ = g₂ →
      buildTailorPrompt r₁ t₁ d₁ = buildTailorPrompt r₂ t₂ d₂ ∧
      buildRecruiterReviewPrompt r₁ c₁ t₁ d₁ = buildRecruiterReviewPrompt r₂ c₂ t₂ d₂ ∧
      buildFixPrompt r₁ g₁ = buildFixPrompt r₂ g₂ := by
  intro r₁ r₂ t₁ t₂ d₁ d₂ c₁ c₂ g₁ g₂ hr ht hd hc hg
  subst hr; subst ht; subst hd; subst hc; subst hg
  exact ⟨rfl, rfl, rfl⟩

theorem prompt_builders_deterministic_witness :
    buildTailorPrompt "r" "t" "d" = buildTailorPrompt "r" "t" "d" ∧
    buildRecruiterReviewPrompt "r" "c" "t" "d" = buildRecruiterReviewPrompt "r" "c" "t" "d" ∧
    buildFixPrompt "r" "g" = buildFixPrompt "r" "g" :=
  prompt_builders_deterministic "r" "r" "t" "t" "d" "d" "c" "c" "g" "g"
    rfl rfl rfl rfl rfl

/-- C4 (counter-evidence): in `saveMarkdownAsPdf` the browser is *not*
closed on every exit path — when `page.pdf` rejects, the straight-line
await chain skips `browser.close()`, leaking the launched browser. -/
theorem browser_not_closed_when_pdf_export_throws :
    (saveMarkdownAsPdf (fun s => s) none "# Resume" "Tailored Resume"
        ⟨.ok (), .ok (), .error "pdf export failed"⟩).browserLaunched = true ∧
    (saveMarkdownAsPdf (fun s => s) none "# Resume" "Tailored Resume"
        ⟨.ok (), .ok (), .error "pdf export failed"⟩).browserClosed = false ∧
    (saveMarkdownAsPdf (fun s => s) none "# Resume" "Tailored Resume"
        ⟨.ok (), .ok (), .error "pdf export failed"⟩).result = .error "pdf export failed" :=
  ⟨rfl, rfl, rfl⟩

/-- C10: when the attempt's HTTP response is a success but its body does
not parse as JSON (`postJson` leaves `json = null`), `callGemini` returns
the empty string after a single request — no error, no retry. -/
theorem ok_response_unparsable_body_yields_empty :
    ∀ (prompt : String) (opts : GeminiOpts) (o : GeminiOracle),
      o.attempt1.ok = true → o.attempt1.json = none →
      (callGemini prompt opts o).1 = .ok "" ∧
      ((callGemini prompt opts o).2).length = 1 := by
  intro prompt opts o hok hjson
  rw [callGemini]
  simp only [hok, if_true, hjson]
  exact ⟨rfl, rfl⟩

theorem ok_response_unparsable_body_yields_empty_witness :
    (callGemini "p" ⟨"0.2", 4096⟩ ⟨⟨true, 200, none, some "not json"⟩,
        ⟨true, 200, none, none⟩⟩).1 = .ok "" ∧
    ((callGemini "p" ⟨"0.2", 4096⟩ ⟨⟨true, 200, none, some "not json"⟩,
        ⟨true, 200, none, none⟩⟩).2).length = 1 :=
  ok_response_unparsable_body_yields_empty "p" ⟨"0.2", 4096⟩
    ⟨⟨true, 200, none, some "not json"⟩, ⟨true, 200, none, none⟩⟩ rfl rfl

/-- C9: the max-iterations flag is inert — two invocations differing only
in that flag produce identical observables (exit status, artifacts,
requests, stages run). -/
theorem max_iterations_flag_inert :
    ∀ (w : World) (jt jd co rp : String) (m₁ m₂ : Option String),
      mainRun ⟨jt, jd, co, rp, m₁⟩ w = mainRun ⟨jt, jd, co, rp, m₂⟩ w := by
  intro w jt jd co rp m₁ m₂
  rfl

/-- C6: when no candidate location of the path heuristic exists, the run
exits with the designated not-found status 2 before the extraction stage,
and performs no network request. -/
theorem missing_resume_exits_before_network :
    ∀ (args : Args) (w : World),
      findResumeFile w.fsExists w.cwd args.resumePathInput = none →
      (mainRun args w).exitCode = 2 ∧
      (mainRun args w).requests = [] ∧
      (mainRun args w).extractionRan = false ∧
      (mainRun args w).stage1Ran = false := by
  intro args w h
  unfold mainRun
  rw [h]
  exact ⟨rfl, rfl, rfl, rfl⟩

theorem missing_resume_exits_before_network_witness :
    (mainRun ⟨"Software Engineer", "", "Company", "resumes/Keshav-resume.docx", none⟩
        ⟨"/cwd", fun _ => false, .ok "", ⟨⟨true, 200, none, none⟩, ⟨true, 200, none, none⟩⟩,
          ⟨⟨true, 200, none, none⟩, ⟨true, 200, none, none⟩⟩,
          ⟨⟨true, 200, none, none⟩, ⟨true, 200, none, none⟩⟩,
          fun _ => false, none, fun s => s, ⟨.ok (), .ok (), .ok ()⟩⟩).exitCode = 2 ∧
    (mainRun ⟨"Software Engineer", "", "Company", "resumes/Keshav-resume.docx", none⟩
        ⟨"/cwd", fun _ => false, .ok "", ⟨⟨true, 200, none, none⟩, ⟨true, 200, none, none⟩⟩,
          ⟨⟨true, 200, none, none⟩, ⟨true, 200, none, none⟩⟩,
          ⟨⟨true, 200, none, none⟩, ⟨true, 200, none, none⟩⟩,
          fun _ => false, none, fun s => s, ⟨.ok (), .ok (), .ok ()⟩⟩).requests = [] ∧
    (mainRun ⟨"Software Engineer", "", "Company", "resumes/Keshav-resume.docx", none⟩
        ⟨"/cwd", fun _ => false, .ok "", ⟨⟨true, 200, none, none⟩, ⟨true, 200, none, none⟩⟩,
          ⟨⟨true, 200, none, none⟩, ⟨true, 200, none, none⟩⟩,
          ⟨⟨true, 200, none, none⟩, ⟨true, 200, none, none⟩⟩,
          fun _ => false, none, fun s => s, ⟨.ok (), .ok (), .ok ()⟩⟩).extractionRan = false ∧
    (mainRun ⟨"Software Engineer", "", "Company", "resumes/Keshav-resume.docx", none⟩
        ⟨"/cwd", fun _ => false, .ok "", ⟨⟨true, 200, none, none⟩, ⟨true, 200, none, none⟩⟩,
          ⟨⟨true, 200, none, none⟩, ⟨true, 200, none, none⟩⟩,
          ⟨⟨true, 200, none, none⟩, ⟨true, 200, none, none⟩⟩,
          fun _ => false, none, fun s => s, ⟨.ok (), .ok (), .ok ()⟩⟩).stage1Ran = false :=
  missing_resume_exits_before_network
    ⟨"Software Engineer", "", "Company", "resumes/Keshav-resume.docx", none⟩
    ⟨"/cwd", fun _ => false, .ok "", ⟨⟨true, 200, none, none⟩, ⟨true, 200, none, none⟩⟩,
      ⟨⟨true, 200, none, none⟩, ⟨true, 200, none, none⟩⟩,
      ⟨⟨true, 200, none, none⟩, ⟨true, 200, none, none⟩⟩,
      fun _ => false, none, fun s => s, ⟨.ok (), .ok (), .ok ()⟩⟩ (by rfl)

theorem strContains_msgOf (a : AttemptResult) (pre suf : String) :
    strContains (failureBody a) (pre ++ msgOfAttempt a ++ suf) := by
  unfold failureBody msgOfAttempt
  cases hj : a.json with
  | some j =>
    by_cases ht : j.truthy
    · simp only [ht, if_true]
      exact strContains_parts _ pre suf
    · simp only [ht, Bool.false_eq_true, if_false]
      cases htxt : a.text with
      | some t => simpa [Option.getD] using strContains_parts t pre suf
      | none => exact strContains_empty _
  | none =>
    cases htxt : a.text with
    | some t => simpa [Option.getD] using strContains_parts t pre suf
    | none => exact strContains_empty _

theorem strContains_errText (a : AttemptResult) (pre suf : String) :
    strContains (failureBody a) (pre ++ errTextOfAttempt a ++ suf) := by
  unfold failureBody errTextOfAttempt
  cases hj : a.json with
  | some j =>
    by_cases ht : j.truthy
    · simp only [ht, if_true]
      exact strContains_parts _ pre suf
    · simp only [ht, Bool.false_eq_true, if_false]
      cases htxt : a.text with
      | some t =>
        by_cases hte : t = ""
        · subst hte
          simp only [if_true, Option.getD]
          exact strContains_empty _
        · simp only [hte, if_false, Option.getD]
          exact strContains_parts t pre suf
      | none => exact strContains_empty _
  | none =>
    cases htxt : a.text with
    | some t =>
      by_cases hte : t = ""
      · subst hte
        simp only [if_true, Option.getD]
        exact strContains_empty _
      · simp only [hte, if_false, Option.getD]
        exact strContains_parts t pre suf
    | none => exact strContains_empty _

/-- C1: each `callGemini` invocation makes at most two outbound POSTs, it
throws a `GenerationError` exactly when both the primary
(candidateConfig-bearing) attempt and the minimal-payload fallback fail,
and the thrown message contains both failure bodies. -/
theorem callGemini_two_attempts_and_error_bodies :
    ∀ (prompt : String) (opts : GeminiOpts) (o : GeminiOracle),
      ((callGemini prompt opts o).2).length ≤ 2 ∧
      (isOkE (callGemini prompt opts o).1 = false ↔
        (o.attempt1.ok = false ∧ o.attempt2.ok = false)) ∧
      (∀ e : String, (callGemini prompt opts o).1 = .error e →
        strContains (failureBody o.attempt1) e ∧
        strContains (failureBody o.attempt2) e) := by
  intro prompt opts o
  unfold callGemini
  by_cases h1 : o.attempt1.ok
  · simp only [h1, if_true]
    refine ⟨by simp, by simp [isOkE, h1], ?_⟩
    intro e he
    simp at he
  · have h1' : o.attempt1.ok = false := by simpa using h1
    simp only [h1', Bool.false_eq_true, if_false]
    by_cases hc : (o.attempt1.status = 400 && unknownNameRegexTest (errTextOfAttempt o.attempt1)) = true
    · simp only [hc, if_true]
      by_cases h2 : o.attempt2.ok
      · simp only [h2, if_true]
        refine ⟨by simp, by simp [isOkE, h1'], ?_⟩
        intro e he
        simp at he
      · have h2' : o.attempt2.ok = false := by simpa using h2
        simp only [h2', Bool.false_eq_true, if_false]
        refine ⟨by simp, by simp [isOkE, h1', h2'], ?_⟩
        intro e he
        simp only [Except.error.injEq] at he
        subst he
        constructor
        · rw [String.append_assoc]
          exact strContains_errText o.attempt1 _ _
        · have h := strContains_msgOf o.attempt2
            ("Gemini API error (both attempts failed). First: " ++
              errTextOfAttempt o.attempt1 ++ ". Second: ") ""
          rwa [String.append_empty] at h
    · simp only [hc, if_false]
      by_cases h2 : o.attempt2.ok
      · simp only [h2, if_true]
        refine ⟨by simp, by simp [isOkE, h1'], ?_⟩
        intro e he
        simp at he
      · have h2' : o.attempt2.ok = false := by simpa using h2
        simp only [h2', Bool.false_eq_true, if_false]
        refine ⟨by simp, by simp [isOkE, h1', h2'], ?_⟩
        intro e he
        simp only [Except.error.injEq] at he
        subst he
        constructor
        · rw [String.append_assoc]
          exact strContains_msgOf o.attempt1 _ _
        · have h := strContains_msgOf o.attempt2
            ("Gemini API error. Attempt1: " ++
              msgOfAttempt o.attempt1 ++ ". Attempt2: ") ""
          rwa [String.append_empty] at h

theorem callGemini_two_attempts_and_error_bodies_witness :
    strContains (failureBody (⟨false, 500, none, some "boom1"⟩ : AttemptResult))
      "Gemini API error. Attempt1: boom1. Attempt2: boom2" ∧
    strContains (failureBody (⟨false, 500, none, some "boom2"⟩ : AttemptResult))
      "Gemini API error. Attempt1: boom1. Attempt2: boom2" :=
  (callGemini_two_attempts_and_error_bodies "p" ⟨"0.2", 4096⟩
      ⟨⟨false, 500, none, some "boom1"⟩, ⟨false, 500, none, some "boom2"⟩⟩).2.2
    "Gemini API error. Attempt1: boom1. Attempt2: boom2" (by rfl)

theorem topOutputBlock_eq_shape : topOutputBlock = shapeTopOutput := rfl

theorem candidatesBlock_bind (j : Json) :
    candidatesBlock j = (firstCandidate j).bind (fun cand =>
      match cand.getField "content" with
      | some (.str s) => some s
      | some (.arr ps) => some (String.intercalate "\n" (ps.map contentPartToString))
      | _ =>
        match cand.getField "output" with
        | some (.arr os) => some (String.intercalate "\n" (os.map textOrStringify))
        | _ =>
          match cand.getField "message" with
          | some msg =>
            if msg.truthy then
              match msg.getField "content" with
              | some mc =>
                if mc.truthy then
                  match mc with
                  | .str s => some s
                  | .arr xs => some (String.intercalate "\n" (xs.map textOrStringify))
                  | _ => none
                else none
              | none => none
            else none
          | none => none) := by
  unfold candidatesBlock firstCandidate
  cases hc : j.getField "candidates" with
  | none => rfl
  | some v =>
    cases v with
    | null => rfl
    | bool b => rfl
    | num n => rfl
    | str s => rfl
    | obj fs => rfl
    | arr cs =>
      cases cs with
      | nil => rfl
      | cons cand rest =>
        simp only [List.head?_cons]
        by_cases ht : cand.truthy
        · simp [ht]
        · simp [ht]

theorem extract_rest_eq (j : Json) :
    (match candidatesBlock j with
     | some s => s
     | none =>
       match topOutputBlock j with
       | some s => s
       | none => jsonStringify j) =
    (match shapeCandContentString j with
     | some s => s
     | none =>
       match shapeCandContentParts j with
       | some s => s
       | none =>
         match shapeCandOutputList j with
         | some s => s
         | none =>
           match shapeCandMessage j with
           | some s => s
           | none =>
             match shapeTopOutput j with
             | some s => s
             | none => jsonStringify j) := by
  rw [candidatesBlock_bind, topOutputBlock_eq_shape]
  cases hfc : firstCandidate j with
  | none =>
    simp only [shapeCandContentString, shapeCandContentParts, shapeCandOutputList,
      shapeCandMessage, hfc, Option.none_bind]
  | some cand =>
    simp only [shapeCandContentString, shapeCandContentParts, shapeCandOutputList,
      shapeCandMessage, hfc, Option.some_bind]
    cases hcon : cand.getField "content" with
    | some v =>
      cases v with
      | str s => rfl
      | arr ps => rfl
      | null =>
        cases hout : cand.getField "output" with
        | some v2 => cases v2 <;> rfl
        | none => rfl
      | bool b =>
        cases hout : cand.getField "output" with
        | some v2 => cases v2 <;> rfl
        | none => rfl
      | num n =>
        cases hout : cand.getField "output" with
        | some v2 => cases v2 <;> rfl
        | none => rfl
      | obj fs =>
        cases hout : cand.getField "output" with
        | some v2 => cases v2 <;> rfl
        | none => rfl
    | none =>
      cases hout : cand.getField "output" with
      | some v2 => cases v2 <;> rfl
      | none => rfl

/-- C2: response-shape extraction is total and tries the documented shapes
in the documented fixed priority order, returning the text of the first
matching shape and the serialized response when none matches (so it never
raises). -/
theorem extractText_matches_documented_priority :
    ∀ json : Option Json,
      extractTextFromResponseJson json = extractByPriority json := by
  intro json
  cases json with
  | none => rfl
  | some j =>
    unfold extractTextFromResponseJson extractByPriority
    by_cases ht : j.truthy
    · simp only [ht, Bool.not_true, Bool.false_eq_true, if_false]
      cases ho : j.getField "output_text" with
      | some v =>
        cases v with
        | str s => simp [shapeOutputText, ho]
        | null => simp only [shapeOutputText, ho]; exact extract_rest_eq j
        | bool b => simp only [shapeOutputText, ho]; exact extract_rest_eq j
        | num n => simp only [shapeOutputText, ho]; exact extract_rest_eq j
        | arr xs => simp only [shapeOutputText, ho]; exact extract_rest_eq j
        | obj fs => simp only [shapeOutputText, ho]; exact extract_rest_eq j
      | none =>
        simp only [shapeOutputText, ho]
        exact extract_rest_eq j
    · have ht' : j.truthy = false := by simpa using ht
      simp only [ht', Bool.not_false, if_true]

theorem callGemini_isOk (prompt : String) (opts : GeminiOpts) (o : GeminiOracle) :
    isOkE (callGemini prompt opts o).1 = geminiSucceeds o := by
  unfold callGemini geminiSucceeds
  by_cases h1 : o.attempt1.ok
  · simp [h1, isOkE]
  · have h1' : o.attempt1.ok = false := by simpa using h1
    by_cases hc : (o.attempt1.status = 400 && unknownNameRegexTest (errTextOfAttempt o.attempt1)) = true
    · by_cases h2 : o.attempt2.ok
      · simp [h1', hc, h2, isOkE]
      · have h2' : o.attempt2.ok = false := by simpa using h2
        simp [h1', hc, h2', isOkE]
    · by_cases h2 : o.attempt2.ok
      · simp [h1', hc, h2, isOkE]
      · have h2' : o.attempt2.ok = false := by simpa using h2
        simp [h1', hc, h2', isOkE]

theorem saveMarkdownAsPdf_result_isOk (markedParse : String → String)
    (templateFile : Option String) (md title : String) (o : RenderOracle) :
    isOkE (saveMarkdownAsPdf markedParse templateFile md title o).result =
      renderSucceeds o := by
  obtain ⟨l, sc, pd⟩ := o
  cases l <;> cases sc <;> cases pd <;> rfl

theorem mainRun_exit_master (args : Args) (w : World) :
    ((mainRun args w).exitCode = 2 ∧ resumeResolved args w = false) ∨
    ((mainRun args w).exitCode = 0 ∧ resumeResolved args w = true ∧
      runFullySucceeds args w = true) ∨
    ((mainRun args w).exitCode = 10 ∧ resumeResolved args w = true ∧
      runFullySucceeds args w = false ∧
      ∃ e : String,
        (⟨"output/error.txt", FileData.text e⟩ : Artifact) ∈ (mainRun args w).artifacts) := by
  cases hfind : findResumeFile w.fsExists w.cwd args.resumePathInput with
  | none =>
    exact Or.inl ⟨by simp [mainRun, hfind], by simp [resumeResolved, hfind]⟩
  | some p =>
    cases hdocx : w.docxRaw with
    | error e =>
      refine Or.inr (Or.inr ⟨by simp [mainRun, hfind, hdocx],
        by simp [resumeResolved, hfind], ?_, ⟨errArtifactText e, ?_⟩⟩)
      · simp [runFullySucceeds, hdocx, isOkE]
      · simp [mainRun, hfind, hdocx]
    | ok rawValue =>
      cases hr1 : (callGemini (buildTailorPrompt (extractTextFromDocx rawValue)
          args.jobTitle args.jobDesc) ⟨"0.2", 4096⟩ w.g1).1 with
      | error e =>
        have hg := callGemini_isOk (buildTailorPrompt (extractTextFromDocx rawValue)
          args.jobTitle args.jobDesc) ⟨"0.2", 4096⟩ w.g1
        rw [hr1] at hg
        refine Or.inr (Or.inr ⟨by simp [mainRun, hfind, hdocx, hr1],
          by simp [resumeResolved, hfind], ?_, ⟨errArtifactText e, ?_⟩⟩)
        · simp [runFullySucceeds, ← hg, isOkE]
        · simp [mainRun, hfind, hdocx, hr1]
      | ok tailored =>
        have hg1 := callGemini_isOk (buildTailorPrompt (extractTextFromDocx rawValue)
          args.jobTitle args.jobDesc) ⟨"0.2", 4096⟩ w.g1
        rw [hr1] at hg1
        cases hr2 : (callGemini (buildRecruiterReviewPrompt tailored args.company
            args.jobTitle args.jobDesc) ⟨"0.1", 1024⟩ w.g2).1 with
        | error e =>
          have hg := callGemini_isOk (buildRecruiterReviewPrompt tailored args.company
            args.jobTitle args.jobDesc) ⟨"0.1", 1024⟩ w.g2
          rw [hr2] at hg
          refine Or.inr (Or.inr ⟨by simp [mainRun, hfind, hdocx, hr1, hr2],
            by simp [resumeResolved, hfind], ?_, ⟨errArtifactText e, ?_⟩⟩)
          · simp [runFullySucceeds, ← hg, isOkE]
          · simp [mainRun, hfind, hdocx, hr1, hr2]
        | ok gapsRaw =>
          have hg2 := callGemini_isOk (buildRecruiterReviewPrompt tailored args.company
            args.jobTitle args.jobDesc) ⟨"0.1", 1024⟩ w.g2
          rw [hr2] at hg2
          cases hr3 : (callGemini (buildFixPrompt tailored
              (computeGapsJson w.jsonParses gapsRaw)) ⟨"0.15", 4096⟩ w.g3).1 with
          | error e =>
            have hg := callGemini_isOk (buildFixPrompt tailored
              (computeGapsJson w.jsonParses gapsRaw)) ⟨"0.15", 4096⟩ w.g3
            rw [hr3] at hg
            refine Or.inr (Or.inr ⟨by simp [mainRun, hfind, hdocx, hr1, hr2, hr3],
              by simp [resumeResolved, hfind], ?_, ⟨errArtifactText e, ?_⟩⟩)
            · simp [runFullySucceeds, ← hg, isOkE]
            · simp [mainRun, hfind, hdocx, hr1, hr2, hr3]
          | ok fixedResume =>
            have hg3 := callGemini_isOk (buildFixPrompt tailored
              (computeGapsJson w.jsonParses gapsRaw)) ⟨"0.15", 4096⟩ w.g3
            rw [hr3] at hg3
            cases hrr : (saveMarkdownAsPdf w.markedParse w.templateFile fixedResume
                (args.jobTitle ++ " - Tailored Resume") w.render).result with
            | error e =>
              have hrn := saveMarkdownAsPdf_result_isOk w.markedParse w.templateFile
                fixedResume (args.jobTitle ++ " - Tailored Resume") w.render
              rw [hrr] at hrn
              refine Or.inr (Or.inr ⟨by simp [mainRun, hfind, hdocx, hr1, hr2, hr3, hrr],
                by simp [resumeResolved, hfind], ?_, ⟨errArtifactText e, ?_⟩⟩)
              · simp [runFullySucceeds, ← hrn, isOkE]
              · simp [mainRun, hfind, hdocx, hr1, hr2, hr3, hrr]
            | ok u =>
              have hrn := saveMarkdownAsPdf_result_isOk w.markedParse w.templateFile
                fixedResume (args.jobTitle ++ " - Tailored Resume") w.render
              rw [hrr] at hrn
              refine Or.inr (Or.inl ⟨by simp [mainRun, hfind, hdocx, hr1, hr2, hr3, hrr],
                by simp [resumeResolved, hfind], ?_⟩)
              simp [runFullySucceeds, hfind, hdocx, ← hg1, ← hg2, ← hg3, ← hrn, isOkE]

/-- C3: the exit status distinguishes the three outcomes — 0 exactly on a
fully successful run, 2 exactly when the resume cannot be located, 10 for
any other unhandled failure, and in the last case an error text artifact
is written to the output directory. -/
theorem exit_status_partition :
    ∀ (args : Args) (w : World),
      ((mainRun args w).exitCode = 0 ∨ (mainRun args w).exitCode = 2 ∨
        (mainRun args w).exitCode = 10) ∧
      ((mainRun args w).exitCode = 2 ↔ resumeResolved args w = false) ∧
      ((mainRun args w).exitCode = 0 ↔ runFullySucceeds args w = true) ∧
      ((mainRun args w).exitCode = 10 →
        ∃ e : String,
          (⟨"output/error.txt", FileData.text e⟩ : Artifact) ∈ (mainRun args w).artifacts) := by
  intro args w
  rcases mainRun_exit_master args w with ⟨h2, hres⟩ | ⟨h0, hres, hfull⟩ | ⟨h10, hres, hfull, hart⟩
  · have hx : (findResumeFile w.fsExists w.cwd args.resumePathInput).isSome = false := hres
    have hfull : runFullySucceeds args w = false := by
      simp [runFullySucceeds, hx]
    refine ⟨Or.inr (Or.inl h2), ⟨fun _ => hres, fun _ => h2⟩, ?_, ?_⟩
    · constructor
      · intro h; exact absurd (h2.symm.trans h) (by decide)
      · intro h; rw [h] at hfull; exact absurd hfull (by decide)
    · intro h; exact absurd (h2.symm.trans h) (by decide)
  · refine ⟨Or.inl h0, ?_, ⟨fun _ => hfull, fun _ => h0⟩, ?_⟩
    · constructor
      · intro h; exact absurd (h0.symm.trans h) (by decide)
      · intro h; rw [h] at hres; exact absurd hres (by decide)
    · intro h; exact absurd (h0.symm.trans h) (by decide)
  · refine ⟨Or.inr (Or.inr h10), ?_, ?_, fun _ => hart⟩
    · constructor
      · intro h; exact absurd (h10.symm.trans h) (by decide)
      · intro h; rw [h] at hres; exact absurd hres (by decide)
    · constructor
      · intro h; exact absurd (h10.symm.trans h) (by decide)
      · intro h; rw [h] at hfull; exact absurd hfull (by decide)

theorem exit_status_partition_witness :
    ∃ e : String,
      (⟨"output/error.txt", FileData.text e⟩ : Artifact) ∈
        (mainRun ⟨"Software Engineer", "", "Company", "resumes/Keshav-resume.docx", none⟩
          ⟨"/cwd", fun _ => true, .error "ENOENT",
            ⟨⟨true, 200, none, none⟩, ⟨true, 200, none, none⟩⟩,
            ⟨⟨true, 200, none, none⟩, ⟨true, 200, none, none⟩⟩,
            ⟨⟨true, 200, none, none⟩, ⟨true, 200, none, none⟩⟩,
            fun _ => false, none, fun s => s, ⟨.ok (), .ok (), .ok ()⟩⟩).artifacts :=
  (exit_status_partition ⟨"Software Engineer", "", "Company", "resumes/Keshav-resume.docx", none⟩
      ⟨"/cwd", fun _ => true, .error "ENOENT",
        ⟨⟨true, 200, none, none⟩, ⟨true, 200, none, none⟩⟩,
        ⟨⟨true, 200, none, none⟩, ⟨true, 200, none, none⟩⟩,
        ⟨⟨true, 200, none, none⟩, ⟨true, 200, none, none⟩⟩,
        fun _ => false, none, fun s => s, ⟨.ok (), .ok (), .ok ()⟩⟩).2.2.2 (by rfl)

theorem mainRun_stage3_characterization (args : Args) (w : World) :
    (mainRun args w).stage3Ran =
      (resumeResolved args w && isOkE w.docxRaw &&
       geminiSucceeds w.g1 && geminiSucceeds w.g2) := by
  cases hfind : findResumeFile w.fsExists w.cwd args.resumePathInput with
  | none => simp [mainRun, hfind, resumeResolved]
  | some p =>
    cases hdocx : w.docxRaw with
    | error e => simp [mainRun, hfind, hdocx, resumeResolved, isOkE]
    | ok rawValue =>
      cases hr1 : (callGemini (buildTailorPrompt (extractTextFromDocx rawValue)
          args.jobTitle args.jobDesc) ⟨"0.2", 4096⟩ w.g1).1 with
      | error e =>
        have hg := callGemini_isOk (buildTailorPrompt (extractTextFromDocx rawValue)
          args.jobTitle args.jobDesc) ⟨"0.2", 4096⟩ w.g1
        rw [hr1] at hg
        simp [mainRun, hfind, hdocx, hr1, resumeResolved, ← hg, isOkE]
      | ok tailored =>
        have hg1 := callGemini_isOk (buildTailorPrompt (extractTextFromDocx rawValue)
          args.jobTitle args.jobDesc) ⟨"0.2", 4096⟩ w.g1
        rw [hr1] at hg1
        cases hr2 : (callGemini (buildRecruiterReviewPrompt tailored args.company
            args.jobTitle args.jobDesc) ⟨"0.1", 1024⟩ w.g2).1 with
        | error e =>
          have hg := callGemini_isOk (buildRecruiterReviewPrompt tailored args.company
            args.jobTitle args.jobDesc) ⟨"0.1", 1024⟩ w.g2
          rw [hr2] at hg
          simp [mainRun, hfind, hdocx, hr1, hr2, resumeResolved, ← hg1, ← hg, isOkE]
        | ok gapsRaw =>
          have hg2 := callGemini_isOk (buildRecruiterReviewPrompt tailored args.company
            args.jobTitle args.jobDesc) ⟨"0.1", 1024⟩ w.g2
          rw [hr2] at hg2
          cases hr3 : (callGemini (buildFixPrompt tailored
              (computeGapsJson w.jsonParses gapsRaw)) ⟨"0.15", 4096⟩ w.g3).1 with
          | error e =>
            simp [mainRun, hfind, hdocx, hr1, hr2, hr3, resumeResolved,
              ← hg1, ← hg2, isOkE]
          | ok fixedResume =>
            cases hrr : (saveMarkdownAsPdf w.markedParse w.templateFile fixedResume
                (args.jobTitle ++ " - Tailored Resume") w.render).result with
            | error e =>
              simp [mainRun, hfind, hdocx, hr1, hr2, hr3, hrr, resumeResolved,
                ← hg1, ← hg2, isOkE]
            | ok u =>
              simp [mainRun, hfind, hdocx, hr1, hr2, hr3, hrr, resumeResolved,
                ← hg1, ← hg2, isOkE]

theorem mainRun_gaps_artifact (args : Args) (w : World) :
    ∀ g : String, (mainRun args w).critiqueRaw = some g →
      (⟨"output/recruiter_gaps.json.txt",
         FileData.text (computeGapsJson w.jsonParses g)⟩ : Artifact) ∈
        (mainRun args w).artifacts := by
  intro g hg
  cases hfind : findResumeFile w.fsExists w.cwd args.resumePathInput with
  | none => simp [mainRun, hfind] at hg
  | some p =>
    cases hdocx : w.docxRaw with
    | error e => simp [mainRun, hfind, hdocx] at hg
    | ok rawValue =>
      cases hr1 : (callGemini (buildTailorPrompt (extractTextFromDocx rawValue)
          args.jobTitle args.jobDesc) ⟨"0.2", 4096⟩ w.g1).1 with
      | error e => simp [mainRun, hfind, hdocx, hr1] at hg
      | ok tailored =>
        cases hr2 : (callGemini (buildRecruiterReviewPrompt tailored args.company
            args.jobTitle args.jobDesc) ⟨"0.1", 1024⟩ w.g2).1 with
        | error e => simp [mainRun, hfind, hdocx, hr1, hr2] at hg
        | ok gapsRaw =>
          cases hr3 : (callGemini (buildFixPrompt tailored
              (computeGapsJson w.jsonParses gapsRaw)) ⟨"0.15", 4096⟩ w.g3).1 with
          | error e =>
            simp only [mainRun, hfind, hdocx, hr1, hr2, hr3, Option.some.injEq] at hg
            subst hg
            simp [mainRun, hfind, hdocx, hr1, hr2, hr3]
          | ok fixedResume =>
            cases hrr : (saveMarkdownAsPdf w.markedParse w.templateFile fixedResume
                (args.jobTitle ++ " - Tailored Resume") w.render).result with
            | error e =>
              simp only [mainRun, hfind, hdocx, hr1, hr2, hr3, hrr, Option.some.injEq] at hg
              subst hg
              simp [mainRun, hfind, hdocx, hr1, hr2, hr3, hrr]
            | ok u =>
              simp only [mainRun, hfind, hdocx, hr1, hr2, hr3, hrr, Option.some.injEq] at hg
              subst hg
              simp [mainRun, hfind, hdocx, hr1, hr2, hr3, hrr]

/-- C5: a JSON-parse failure in the critique stage never aborts the run —
the revision stage runs exactly when the stages before it succeeded,
independently of the parse outcome — and the persisted gap-analysis
artifact equals the brace-delimited substring when that substring parses
as JSON, and the raw critique text otherwise. -/
theorem critique_parse_failure_degrades_not_aborts :
    ∀ (args : Args) (w : World),
      ((mainRun args w).stage3Ran =
        (resumeResolved args w && isOkE w.docxRaw &&
         geminiSucceeds w.g1 && geminiSucceeds w.g2)) ∧
      (∀ g : String, (mainRun args w).critiqueRaw = some g →
        (⟨"output/recruiter_gaps.json.txt",
           FileData.text (computeGapsJson w.jsonParses g)⟩ : Artifact) ∈
          (mainRun args w).artifacts) ∧
      (∀ (jsonParses : String → Bool) (raw sub : String),
        braceMatch raw = some sub →
          (jsonParses sub = true → computeGapsJson jsonParses raw = sub) ∧
          (jsonParses sub = false → computeGapsJson jsonParses raw = raw)) ∧
      (∀ (jsonParses : String → Bool) (raw : String),
        braceMatch raw = none → computeGapsJson jsonParses raw = raw) := by
  intro args w
  refine ⟨mainRun_stage3_characterization args w, mainRun_gaps_artifact args w, ?_, ?_⟩
  · intro jsonParses raw sub h
    constructor
    · intro hp
      simp [computeGapsJson, h, hp]
    · intro hp
      simp [computeGapsJson, h, hp]
  · intro jsonParses raw h
    by_cases hp : jsonParses raw
    · simp [computeGapsJson, h, hp]
    · simp [computeGapsJson, h, hp]

theorem critique_parse_failure_degrades_not_aborts_witness :
    computeGapsJson (fun _ => false) "xx\x7b\"a\":1\x7dyy" = "xx\x7b\"a\":1\x7dyy" :=
  ((critique_parse_failure_degrades_not_aborts
        ⟨"Software Engineer", "", "Company", "resumes/Keshav-resume.docx", none⟩
        ⟨"/cwd", fun _ => false, .ok "",
          ⟨⟨true, 200, none, none⟩, ⟨true, 200, none, none⟩⟩,
          ⟨⟨true, 200, none, none⟩, ⟨true, 200, none, none⟩⟩,
          ⟨⟨true, 200, none, none⟩, ⟨true, 200, none, none⟩⟩,
          fun _ => false, none, fun s => s, ⟨.ok (), .ok (), .ok ()⟩⟩).2.2.1
      (fun _ => false) "xx\x7b\"a\":1\x7dyy" "\x7b\"a\":1\x7d" (by rfl)).2 rfl
